import Mathlib

/-!
# Verification of the Hydrawise GraphQL client
(`custom_components/hunter_hydrawise/pydrawise/client.py`)

A shallow embedding of the client's pure request/response logic:
JSON-like values, the mutation response handler `_mutation`, the
argument builders of the mutation methods, the key-path extraction
of the query methods, and the call/session discipline of `_client`.
-/

namespace Hydrawise

/-- JSON-like values as they appear in GraphQL responses and request
arguments. Python dicts are modelled as association lists with
distinct keys (insertion order preserved). -/
inductive GqlValue where
  | str (s : String)
  | int (n : Int)
  | bool (b : Bool)
  | null
  | list (xs : List GqlValue)
  | obj (fields : List (String × GqlValue))

/-- Dict item access `d[k]` on a Python dict modelled as an association list:
returns the value of the first matching key, `none` for a `KeyError`. -/
def lookup : List (String × GqlValue) → String → Option GqlValue
  | [], _ => none
  | (k, v) :: rest, key => if k = key then some v else lookup rest key

/-- Python truthiness of a JSON-like value (`if not resp`). -/
def truthy : GqlValue → Bool
  | .str s => s ≠ ""
  | .int n => n ≠ 0
  | .bool b => b
  | .null => false
  | .list xs => ¬ xs.isEmpty
  | .obj fields => ¬ fields.isEmpty

/-- Membership test `resp["status"] in ("OK", "WARNING")`: the status value is one of the
two accepted strings (a non-string status never equals either). -/
def isAcceptedStatus : GqlValue → Bool
  | .str s => s = "OK" ∨ s = "WARNING"
  | _ => false

/-- Outcome of `Hydrawise._mutation`: normal return (`None`), a raised
`MutationError` (with the server summary, or without a message on the
bare-boolean path), or a raised `KeyError` from an unguarded dict access. -/
inductive MutationOutcome where
  | success
  | mutationError (msg : Option GqlValue)
  | keyError (key : String)

/-- The response-envelope handling of `Hydrawise._mutation`
(client.py lines 55-62): if the response is a dict, check
`resp["status"] not in ("OK", "WARNING")` and raise
`MutationError(resp["summary"])` on a non-accepted status; a non-dict
response raises a message-less `MutationError` exactly when falsy. -/
def handleMutationResponse (resp : GqlValue) : MutationOutcome :=
  match resp with
  | .obj fields =>
    match lookup fields "status" with
    | none => .keyError "status"
    | some st =>
      if isAcceptedStatus st then .success
      else
        match lookup fields "summary" with
        | none => .keyError "summary"
        | some sm => .mutationError (some sm)
  | v => if truthy v then .success else .mutationError none

/-- A GraphQL mutation request: a top-level field name and its arguments. -/
structure MutationRequest where
  field : String
  args : List (String × GqlValue)

/-- Envelope extraction `result[selector.name]` followed by the envelope handling: the full
response side of `Hydrawise._mutation`. -/
def runMutation (req : MutationRequest) (result : List (String × GqlValue)) :
    MutationOutcome :=
  match lookup result req.field with
  | none => .keyError req.field
  | some resp => handleMutationResponse resp

/-- The `kwargs` dict built by `Hydrawise.start_zone` (client.py lines
138-144): `zoneId`, `markRunAsScheduled` and `stackRuns` always,
`customRunDuration` appended only when strictly positive. -/
def start_zone_args (zoneId : Int) (markRunAsScheduled : Bool)
    (customRunDuration : Int) (stackRuns : Bool) : List (String × GqlValue) :=
  let kwargs : List (String × GqlValue) :=
    [("zoneId", .int zoneId),
     ("markRunAsScheduled", .bool markRunAsScheduled),
     ("stackRuns", .bool stackRuns)]
  if customRunDuration > 0 then
    kwargs ++ [("customRunDuration", .int customRunDuration)]
  else
    kwargs

/-- The `kwargs` dict built by `Hydrawise.start_all_zones` (client.py lines
176-181): `controllerId` and `markRunAsScheduled` always,
`customRunDuration` appended only when strictly positive. -/
def start_all_zones_args (controllerId : Int) (markRunAsScheduled : Bool)
    (customRunDuration : Int) : List (String × GqlValue) :=
  let kwargs : List (String × GqlValue) :=
    [("controllerId", .int controllerId),
     ("markRunAsScheduled", .bool markRunAsScheduled)]
  if customRunDuration > 0 then
    kwargs ++ [("customRunDuration", .int customRunDuration)]
  else
    kwargs

/-- The mutation request issued by `Hydrawise.stop_zone` (client.py lines
152-161): field `stopZone` with the zone's id as `zoneId`. -/
def stop_zone_request (zoneId : Int) : MutationRequest :=
  { field := "stopZone", args := [("zoneId", .int zoneId)] }

/-- Method `Hydrawise.stop_zone` end to end on the response side: issue the
`stopZone` mutation and handle the server result. -/
def stop_zone (zoneId : Int) (result : List (String × GqlValue)) :
    MutationOutcome :=
  runMutation (stop_zone_request zoneId) result

/-- Modelled from the spec: the timestamps passed as `until` to
`suspend_zone`/`suspend_all_zones`. The schema module holding Python's
`datetime` handling is not under `src/`; the spec describes an aware
timestamp whose timezone must survive serialization, so the model keeps
an explicit offset (in minutes) next to the calendar fields. -/
structure PyDateTime where
  year : Nat
  month : Nat
  day : Nat
  hour : Nat
  minute : Nat
  second : Nat
  tzOffsetMinutes : Int
deriving DecidableEq, Repr

/-- A calendar/clock field rendered as two decimal digits. -/
def twoDigits (n : Nat) : List Char :=
  if n < 10 then '0' :: Nat.toDigits 10 n else Nat.toDigits 10 n

/-- The timezone suffix of the wire date-time format: sign, hours and
minutes of the offset (`+HH:MM` / `-HH:MM`). -/
def tzChars (off : Int) : List Char :=
  (if off < 0 then '-' else '+') ::
    (twoDigits (off.natAbs / 60) ++ ':' :: twoDigits (off.natAbs % 60))

/-- The calendar-and-clock part of the wire date-time format
(`YYYY-MM-DDTHH:MM:SS`). -/
def datePartChars (dt : PyDateTime) : List Char :=
  Nat.toDigits 10 dt.year
    ++ ('-' :: twoDigits dt.month) ++ ('-' :: twoDigits dt.day)
    ++ ('T' :: twoDigits dt.hour) ++ (':' :: twoDigits dt.minute)
    ++ (':' :: twoDigits dt.second)

/-- Modelled from the spec: `DateTime.to_json(until).value`, the schema's
wire date-time serialization (the schema module is not under `src/`).
ISO-8601-like rendering that keeps the timezone offset as a suffix. -/
def dateTimeToJson (dt : PyDateTime) : String :=
  ⟨datePartChars dt ++ tzChars dt.tzOffsetMinutes⟩

/-- The arguments of the `suspendZone` mutation built by
`Hydrawise.suspend_zone` (client.py lines 206-213): the zone's id and the
serialized `until` timestamp. -/
def suspend_zone_args (zoneId : Int) (untilTime : PyDateTime) :
    List (String × GqlValue) :=
  [("zoneId", .int zoneId), ("until", .str (dateTimeToJson untilTime))]

/-- The arguments of the `suspendAllZones` mutation built by
`Hydrawise.suspend_all_zones` (client.py lines 232-239). -/
def suspend_all_zones_args (controllerId : Int) (untilTime : PyDateTime) :
    List (String × GqlValue) :=
  [("controllerId", .int controllerId), ("until", .str (dateTimeToJson untilTime))]

/-- Decode two decimal digit characters back to a number. -/
def parseTwoChars : List Char → Option Nat
  | [a, b] =>
    if a.isDigit ∧ b.isDigit then
      some ((a.toNat - 48) * 10 + (b.toNat - 48))
    else none
  | _ => none

/-- Decode a `±HH:MM` timezone suffix back to an offset in minutes. -/
def parseTzChars : List Char → Option Int
  | [s, h1, h2, c, m1, m2] =>
    if c = ':' then
      match parseTwoChars [h1, h2], parseTwoChars [m1, m2] with
      | some hh, some mm =>
        if s = '+' then some ((hh : Int) * 60 + mm)
        else if s = '-' then some (-((hh : Int) * 60 + mm))
        else none
      | _, _ => none
    else none
  | _ => none

/-- Recover the timezone offset from a serialized date-time: it is the
six-character suffix of the wire string. -/
def extractTzOffset (s : String) : Option Int :=
  parseTzChars ((s.data.reverse.take 6).reverse)

/-- Modelled from the spec: the `User` record of the schema module (not
under `src/`) — account identity owning controllers. -/
structure User where
  id : Int
  name : String
deriving DecidableEq, Repr

/-- Modelled from the spec: the `Controller` record of the schema module
(not under `src/`) — an irrigation controller with an integer id. -/
structure Controller where
  id : Int
  name : String
deriving DecidableEq, Repr

/-- Modelled from the spec: the `Zone` record of the schema module (not
under `src/`) — a sprinkler zone with an integer id. -/
structure Zone where
  id : Int
  name : String
deriving DecidableEq, Repr

/-- Modelled from the spec: JSON rendering of a `User` record. -/
def User.toJson (u : User) : GqlValue :=
  .obj [("id", .int u.id), ("name", .str u.name)]

/-- Modelled from the spec: `deserialize(User, ·)` of the schema helper
(not under `src/`), inverse of the JSON rendering on declared fields. -/
def User.fromJson : GqlValue → Option User
  | .obj f =>
    match lookup f "id", lookup f "name" with
    | some (.int i), some (.str n) => some ⟨i, n⟩
    | _, _ => none
  | _ => none

/-- Modelled from the spec: JSON rendering of a `Controller` record. -/
def Controller.toJson (c : Controller) : GqlValue :=
  .obj [("id", .int c.id), ("name", .str c.name)]

/-- Modelled from the spec: `deserialize(Controller, ·)`. -/
def Controller.fromJson : GqlValue → Option Controller
  | .obj f =>
    match lookup f "id", lookup f "name" with
    | some (.int i), some (.str n) => some ⟨i, n⟩
    | _, _ => none
  | _ => none

/-- Modelled from the spec: JSON rendering of a `Zone` record. -/
def Zone.toJson (z : Zone) : GqlValue :=
  .obj [("id", .int z.id), ("name", .str z.name)]

/-- Modelled from the spec: `deserialize(Zone, ·)`. -/
def Zone.fromJson : GqlValue → Option Zone
  | .obj f =>
    match lookup f "id", lookup f "name" with
    | some (.int i), some (.str n) => some ⟨i, n⟩
    | _, _ => none
  | _ => none

/-- Response side of `Hydrawise.get_user` (client.py lines 64-73):
`deserialize(User, result["me"])`. -/
def get_user (result : List (String × GqlValue)) : Option User :=
  match lookup result "me" with
  | some payload => User.fromJson payload
  | none => none

/-- Response side of `Hydrawise.get_controllers` (client.py lines 75-85):
`deserialize(list[Controller], result["me"]["controllers"])`. -/
def get_controllers (result : List (String × GqlValue)) :
    Option (List Controller) :=
  match lookup result "me" with
  | some (.obj me) =>
    match lookup me "controllers" with
    | some (.list xs) => xs.mapM Controller.fromJson
    | _ => none
  | _ => none

/-- Response side of `Hydrawise.get_controller` (client.py lines 87-98):
`deserialize(Controller, result["controller"])`. -/
def get_controller (result : List (String × GqlValue)) : Option Controller :=
  match lookup result "controller" with
  | some payload => Controller.fromJson payload
  | none => none

/-- Response side of `Hydrawise.get_zones` (client.py lines 100-111):
`deserialize(list[Zone], result["controller"]["zones"])`. -/
def get_zones (result : List (String × GqlValue)) : Option (List Zone) :=
  match lookup result "controller" with
  | some (.obj c) =>
    match lookup c "zones" with
    | some (.list xs) => xs.mapM Zone.fromJson
    | _ => none
  | _ => none

/-- Response side of `Hydrawise.get_zone` (client.py lines 113-122):
`deserialize(Zone, result["zone"])`. -/
def get_zone (result : List (String × GqlValue)) : Option Zone :=
  match lookup result "zone" with
  | some payload => Zone.fromJson payload
  | none => none

/-- Modelled from the spec: the `Auth` collaborator (not under `src/`)
"exposes an async accessor returning a current bearer-token string".
`tokens n` is the token its accessor returns on its `n`-th invocation;
`tokenCalls` counts invocations made so far. -/
structure AuthState where
  tokens : Nat → String
  tokenCalls : Nat

/-- One invocation of `await self._auth.token()`: yields the next token
and advances the collaborator. -/
def AuthState.getToken (a : AuthState) : String × AuthState :=
  (a.tokens a.tokenCalls, { a with tokenCalls := a.tokenCalls + 1 })

/-- Ambient effects of a call: the auth collaborator's state and a
fresh-session counter (each `AIOHTTPTransport`/`Client` construction
allocates a new session object). -/
structure World where
  auth : AuthState
  nextSession : Nat

/-- A transport/session as produced by `Hydrawise._client` (client.py
lines 43-46): carries the `Authorization` header it was built with and
the identity of the freshly allocated session. -/
structure Session where
  authHeader : String
  sessionId : Nat
deriving DecidableEq, Repr

/-- Method `Hydrawise._client`: fetch a token from the auth collaborator and
build a fresh transport whose `Authorization` header is that token. -/
def mkClient (w : World) : Session × World :=
  let (tok, a) := w.auth.getToken
  ({ authHeader := tok, sessionId := w.nextSession },
   { auth := a, nextSession := w.nextSession + 1 })

/-- The client object built by `Hydrawise.__init__` (client.py lines
36-41): its sole stored field is the auth collaborator reference. -/
structure HydrawiseClient where
  authRef : Nat
deriving DecidableEq, Repr

/-- The public operations of the client, with their parameters. -/
inductive Op where
  | get_user
  | get_controllers
  | get_controller (controllerId : Int)
  | get_zones (controllerId : Int)
  | get_zone (zoneId : Int)
  | start_zone (zoneId : Int) (markRunAsScheduled : Bool)
      (customRunDuration : Int) (stackRuns : Bool)
  | stop_zone (zoneId : Int)
  | start_all_zones (controllerId : Int) (markRunAsScheduled : Bool)
      (customRunDuration : Int)
  | stop_all_zones (controllerId : Int)
  | suspend_zone (zoneId : Int) (untilTime : PyDateTime)
  | resume_zone (zoneId : Int)
  | suspend_all_zones (controllerId : Int) (untilTime : PyDateTime)
  | resume_all_zones (controllerId : Int)
  | delete_zone_suspension (suspensionId : Int)

/-- The top-level GraphQL field each operation selects. -/
def Op.gqlField : Op → String
  | .get_user | .get_controllers => "me"
  | .get_controller _ | .get_zones _ => "controller"
  | .get_zone _ => "zone"
  | .start_zone _ _ _ _ => "startZone"
  | .stop_zone _ => "stopZone"
  | .start_all_zones _ _ _ => "startAllZones"
  | .stop_all_zones _ => "stopAllZones"
  | .suspend_zone _ _ => "suspendZone"
  | .resume_zone _ => "resumeZone"
  | .suspend_all_zones _ _ => "suspendAllZones"
  | .resume_all_zones _ => "resumeAllZones"
  | .delete_zone_suspension _ => "deleteZoneSuspension"

/-- The arguments each operation attaches to its GraphQL field, exactly
as built in client.py. -/
def Op.gqlArgs : Op → List (String × GqlValue)
  | .get_user | .get_controllers => []
  | .get_controller cid | .get_zones cid => [("controllerId", .int cid)]
  | .get_zone zid => [("zoneId", .int zid)]
  | .start_zone z m d s => start_zone_args z m d s
  | .stop_zone z => (stop_zone_request z).args
  | .start_all_zones c m d => start_all_zones_args c m d
  | .stop_all_zones c => [("controllerId", .int c)]
  | .suspend_zone z u => suspend_zone_args z u
  | .resume_zone z => [("zoneId", .int z)]
  | .suspend_all_zones c u => suspend_all_zones_args c u
  | .resume_all_zones c => [("controllerId", .int c)]
  | .delete_zone_suspension i => [("id", .int i)]

/-- One outgoing request as observed on the wire: the `Authorization`
header and session it travelled on, and its GraphQL field/arguments. -/
structure Request where
  authHeader : String
  sessionId : Nat
  gqlField : String
  args : List (String × GqlValue)

/-- One client call: `_query`/`_mutation` builds a fresh client via
`_client` (token fetch + new transport), sends the operation's document
through it, and tears the session down. The client object itself is not
assigned to by any method. -/
def runOp (client : HydrawiseClient) (w : World) (op : Op) :
    Request × HydrawiseClient × World :=
  let (sess, w') := mkClient w
  ({ authHeader := sess.authHeader, sessionId := sess.sessionId,
     gqlField := op.gqlField, args := op.gqlArgs },
   client, w')

/-- A sequence of client calls, returning the requests in order. -/
def runOps (client : HydrawiseClient) (w : World) :
    List Op → List Request × HydrawiseClient × World
  | [] => ([], client, w)
  | op :: ops =>
    let (r, c, w') := runOp client w op
    let (rs, c', w'') := runOps c w' ops
    (r :: rs, c', w'')

/-- C1: a structured (mapping) mutation response with status `"OK"` or
`"WARNING"` makes `_mutation` return normally with no value; any other
status raises `MutationError` whose message is the response's `summary`
field. -/
theorem mutation_status_envelope (fields : List (String × GqlValue))
    (st : String) (sm : GqlValue)
    (hst : lookup fields "status" = some (.str st))
    (hsm : lookup fields "summary" = some sm) :
    ((st = "OK" ∨ st = "WARNING") →
      handleMutationResponse (.obj fields) = .success) ∧
    (st ≠ "OK" → st ≠ "WARNING" →
      handleMutationResponse (.obj fields) = .mutationError (some sm)) := by
  constructor
  · intro h
    have hacc : isAcceptedStatus (.str st) = true := by
      simp [isAcceptedStatus]
      exact h
    simp [handleMutationResponse, hst, hacc]
  · intro h1 h2
    have hacc : isAcceptedStatus (.str st) = false := by
      simp [isAcceptedStatus, h1, h2]
    simp [handleMutationResponse, hst, hacc, hsm]

/-- Witness for C1 at concrete responses. -/
theorem mutation_status_envelope_witness :
    handleMutationResponse
      (.obj [("status", .str "OK"), ("summary", .str "fine")]) = .success ∧
    handleMutationResponse
      (.obj [("status", .str "ERROR"), ("summary", .str "boom")]) =
        .mutationError (some (.str "boom")) :=
  ⟨(mutation_status_envelope [("status", .str "OK"), ("summary", .str "fine")]
      "OK" (.str "fine") rfl rfl).1 (Or.inl rfl),
   (mutation_status_envelope [("status", .str "ERROR"), ("summary", .str "boom")]
      "ERROR" (.str "boom") rfl rfl).2 (by decide) (by decide)⟩

/-- C2: a non-mapping mutation response raises a message-less
`MutationError` exactly when falsy, and makes `_mutation` return
normally when truthy. -/
theorem mutation_bool_envelope (v : GqlValue)
    (hv : ∀ fields, v ≠ .obj fields) :
    (truthy v = false → handleMutationResponse v = .mutationError none) ∧
    (truthy v = true → handleMutationResponse v = .success) := by
  cases v with
  | obj fields => exact absurd rfl (hv fields)
  | str s => exact ⟨fun h => by simp [handleMutationResponse, h],
      fun h => by simp [handleMutationResponse, h]⟩
  | int n => exact ⟨fun h => by simp [handleMutationResponse, h],
      fun h => by simp [handleMutationResponse, h]⟩
  | bool b => exact ⟨fun h => by simp [handleMutationResponse, h],
      fun h => by simp [handleMutationResponse, h]⟩
  | null => exact ⟨fun h => by simp [handleMutationResponse, h],
      fun h => by simp [handleMutationResponse, truthy] at h⟩
  | list xs => exact ⟨fun h => by simp [handleMutationResponse, h],
      fun h => by simp [handleMutationResponse, h]⟩

/-- Witness for C2 at the two bare-boolean responses. -/
theorem mutation_bool_envelope_witness :
    handleMutationResponse (.bool false) = .mutationError none ∧
    handleMutationResponse (.bool true) = .success :=
  ⟨(mutation_bool_envelope (.bool false)
      (fun _ h => GqlValue.noConfusion h)).1 rfl,
   (mutation_bool_envelope (.bool true)
      (fun _ h => GqlValue.noConfusion h)).2 rfl⟩

/-- C9: the status/summary accesses of `_mutation` are unguarded — a
mapping without `"status"`, or with a non-accepted status and no
`"summary"`, raises a `KeyError` rather than `MutationError`; the empty
mapping in particular raises `KeyError "status"` and never reaches the
bare-boolean branch. -/
theorem mutation_unguarded_access (fields : List (String × GqlValue))
    (st : GqlValue) :
    (lookup fields "status" = none →
      handleMutationResponse (.obj fields) = .keyError "status") ∧
    (lookup fields "status" = some st → isAcceptedStatus st = false →
      lookup fields "summary" = none →
      handleMutationResponse (.obj fields) = .keyError "summary") ∧
    handleMutationResponse (.obj []) = .keyError "status" ∧
    handleMutationResponse (.obj []) ≠ .mutationError none := by
  refine ⟨fun h => by simp [handleMutationResponse, h],
    fun h1 h2 h3 => by simp [handleMutationResponse, h1, h2, h3],
    rfl, by simp [handleMutationResponse, lookup]⟩

/-- Witness for C9 at concrete malformed responses. -/
theorem mutation_unguarded_access_witness :
    handleMutationResponse (.obj [("summary", .str "s")]) =
      .keyError "status" ∧
    handleMutationResponse (.obj [("status", .str "BAD")]) =
      .keyError "summary" :=
  ⟨(mutation_unguarded_access [("summary", .str "s")] .null).1 rfl,
   (mutation_unguarded_access [("status", .str "BAD")] (.str "BAD")).2.1
     rfl (by decide) rfl⟩

/-- C4: `stop_zone` on a zone with id 42 issues a `stopZone` mutation
with `zoneId = 42`; an `"OK"` status object makes it return normally,
and a `{"status": "ERROR", "summary": "some summary"}` response raises
`MutationError` with message `"some summary"`. -/
theorem stop_zone_spec :
    (stop_zone_request 42).field = "stopZone" ∧
    (stop_zone_request 42).args = [("zoneId", .int 42)] ∧
    stop_zone 42 [("stopZone", .obj [("status", .str "OK")])] = .success ∧
    stop_zone 42
      [("stopZone",
        .obj [("status", .str "ERROR"), ("summary", .str "some summary")])] =
      .mutationError (some (.str "some summary")) :=
  ⟨rfl, rfl, rfl, rfl⟩

/-- C3: `start_zone`/`start_all_zones` omit `customRunDuration` from the
request when `custom_run_duration == 0` and transmit exactly that value
when it is strictly positive. -/
theorem start_custom_run_duration (z c d : Int) (m s : Bool) :
    (d = 0 →
      lookup (start_zone_args z m d s) "customRunDuration" = none ∧
      lookup (start_all_zones_args c m d) "customRunDuration" = none) ∧
    (d > 0 →
      lookup (start_zone_args z m d s) "customRunDuration" = some (.int d) ∧
      lookup (start_all_zones_args c m d) "customRunDuration" = some (.int d)) := by
  constructor
  · intro h
    subst h
    exact ⟨rfl, rfl⟩
  · intro h
    unfold start_zone_args start_all_zones_args
    rw [if_pos h, if_pos h]
    exact ⟨rfl, rfl⟩

/-- Witness for C3 at durations 0 and 25. -/
theorem start_custom_run_duration_witness :
    lookup (start_zone_args 1 false 0 false) "customRunDuration" = none ∧
    lookup (start_all_zones_args 2 false 25) "customRunDuration" =
      some (.int 25) :=
  ⟨((start_custom_run_duration 1 2 0 false false).1 rfl).1,
   ((start_custom_run_duration 1 2 25 false false).2 (by decide)).2⟩

/-- C10: a strictly negative `custom_run_duration` is omitted from the
request exactly like zero, while `markRunAsScheduled` (and `stackRuns`
for `start_zone`) are always transmitted, including at their default
`false` values. -/
theorem start_negative_duration_and_defaults (z c d : Int) (m s : Bool) :
    (d < 0 →
      lookup (start_zone_args z m d s) "customRunDuration" = none ∧
      lookup (start_all_zones_args c m d) "customRunDuration" = none) ∧
    lookup (start_zone_args z m d s) "markRunAsScheduled" = some (.bool m) ∧
    lookup (start_zone_args z m d s) "stackRuns" = some (.bool s) ∧
    lookup (start_all_zones_args c m d) "markRunAsScheduled" = some (.bool m) := by
  refine ⟨fun hd => ?_, ?_, ?_, ?_⟩
  · have h : ¬ d > 0 := by omega
    unfold start_zone_args start_all_zones_args
    rw [if_neg h, if_neg h]
    exact ⟨rfl, rfl⟩
  all_goals
    simp only [start_zone_args, start_all_zones_args]
    split <;> rfl

/-- Witness for C10 at duration -5 and default flags. -/
theorem start_negative_duration_and_defaults_witness :
    lookup (start_zone_args 1 false (-5) false) "customRunDuration" = none ∧
    lookup (start_zone_args 1 false (-5) false) "markRunAsScheduled" =
      some (.bool false) ∧
    lookup (start_zone_args 1 false (-5) false) "stackRuns" =
      some (.bool false) :=
  ⟨((start_negative_duration_and_defaults 1 2 (-5) false false).1
      (by decide)).1,
   (start_negative_duration_and_defaults 1 2 (-5) false false).2.1,
   (start_negative_duration_and_defaults 1 2 (-5) false false).2.2.1⟩

/-- Deserialization inverts serialization on `User`. -/
theorem User_fromJson_toJson (u : User) : User.fromJson u.toJson = some u := by
  cases u
  rfl

/-- Deserialization inverts serialization on `Controller`. -/
theorem Controller_fromJson_toJson (c : Controller) :
    Controller.fromJson c.toJson = some c := by
  cases c
  rfl

/-- Deserialization inverts serialization on `Zone`. -/
theorem Zone_fromJson_toJson (z : Zone) : Zone.fromJson z.toJson = some z := by
  cases z
  rfl

/-- List deserialization inverts list serialization on `Controller`. -/
theorem Controller_list_roundtrip (cs : List Controller) :
    (cs.map Controller.toJson).mapM Controller.fromJson = some cs := by
  induction cs with
  | nil => rfl
  | cons c cs ih =>
    rw [List.map_cons, List.mapM_cons, Controller_fromJson_toJson, ih]
    rfl

/-- List deserialization inverts list serialization on `Zone`. -/
theorem Zone_list_roundtrip (zs : List Zone) :
    (zs.map Zone.toJson).mapM Zone.fromJson = some zs := by
  induction zs with
  | nil => rfl
  | cons z zs ih =>
    rw [List.map_cons, List.mapM_cons, Zone_fromJson_toJson, ih]
    rfl

/-- C5: each query method returns the deserialization of the payload at
its expected key path — `get_user` from `"me"`, `get_controllers` from
`"me"."controllers"`, `get_controller` from `"controller"`, `get_zones`
from `"controller"."zones"`, and `get_zone` from `"zone"`. -/
theorem query_key_paths (u : User) (cs : List Controller) (c : Controller)
    (zs : List Zone) (z : Zone) :
    get_user [("me", u.toJson)] = some u ∧
    get_controllers
      [("me", .obj [("controllers", .list (cs.map Controller.toJson))])] =
      some cs ∧
    get_controller [("controller", c.toJson)] = some c ∧
    get_zones [("controller", .obj [("zones", .list (zs.map Zone.toJson))])] =
      some zs ∧
    get_zone [("zone", z.toJson)] = some z := by
  exact ⟨User_fromJson_toJson u, Controller_list_roundtrip cs,
    Controller_fromJson_toJson c, Zone_list_roundtrip zs,
    Zone_fromJson_toJson z⟩

/-- Two-digit rendering has exactly two characters below 100. -/
theorem twoDigits_length_fin : ∀ n : Fin 100, (twoDigits n.val).length = 2 := by
  decide

/-- Two-digit decoding inverts two-digit rendering below 100. -/
theorem parseTwoChars_twoDigits_fin :
    ∀ n : Fin 100, parseTwoChars (twoDigits n.val) = some n.val := by
  decide

/-- Two-digit rendering has exactly two characters below 100. -/
theorem twoDigits_length (n : Nat) (h : n < 100) :
    (twoDigits n).length = 2 :=
  twoDigits_length_fin ⟨n, h⟩

/-- Two-digit decoding inverts two-digit rendering below 100. -/
theorem parseTwoChars_twoDigits (n : Nat) (h : n < 100) :
    parseTwoChars (twoDigits n) = some n :=
  parseTwoChars_twoDigits_fin ⟨n, h⟩

/-- For offsets up to a day, the timezone suffix is six characters and
decodes back to the exact offset — no information is lost. -/
theorem parseTzChars_tzChars (off : Int) (h : off.natAbs ≤ 1440) :
    parseTzChars (tzChars off) = some off ∧ (tzChars off).length = 6 := by
  have hh : off.natAbs / 60 < 100 := by omega
  have hm : off.natAbs % 60 < 100 := by omega
  have lh := twoDigits_length _ hh
  have lm := twoDigits_length _ hm
  have ph := parseTwoChars_twoDigits _ hh
  have pm := parseTwoChars_twoDigits _ hm
  rcases eh : twoDigits (off.natAbs / 60) with _ | ⟨a, _ | ⟨b, _ | _⟩⟩ <;>
    rw [eh] at lh <;> simp at lh
  rcases em : twoDigits (off.natAbs % 60) with _ | ⟨a', _ | ⟨b', _ | _⟩⟩ <;>
    rw [em] at lm <;> simp at lm
  rw [eh] at ph
  rw [em] at pm
  constructor
  · show parseTzChars
      ((if off < 0 then '-' else '+') ::
        (twoDigits (off.natAbs / 60) ++ ':' :: twoDigits (off.natAbs % 60))) =
      some off
    rw [eh, em]
    by_cases hs : off < 0
    · rw [if_pos hs]
      show parseTzChars ['-', a, b, ':', a', b'] = some off
      simp only [parseTzChars, ph, pm, if_true]
      rw [if_neg (by decide : ¬ ('-' = '+'))]
      congr 1
      omega
    · rw [if_neg hs]
      show parseTzChars ['+', a, b, ':', a', b'] = some off
      simp only [parseTzChars, ph, pm, if_true]
      congr 1
      omega
  · show ((if off < 0 then '-' else '+') ::
      (twoDigits (off.natAbs / 60) ++ ':' :: twoDigits (off.natAbs % 60))).length = 6
    rw [eh, em]
    by_cases hs : off < 0 <;> simp [hs]

/-- The timezone offset is recoverable from the serialized date-time:
the suffix decodes to exactly the offset the timestamp carried. -/
theorem extractTzOffset_dateTimeToJson (dt : PyDateTime)
    (h : dt.tzOffsetMinutes.natAbs ≤ 1440) :
    extractTzOffset (dateTimeToJson dt) = some dt.tzOffsetMinutes := by
  obtain ⟨hparse, hlen⟩ := parseTzChars_tzChars dt.tzOffsetMinutes h
  show parseTzChars
    (((datePartChars dt ++ tzChars dt.tzOffsetMinutes).reverse.take 6).reverse) =
    some dt.tzOffsetMinutes
  rw [List.reverse_append]
  rw [List.take_left' (by rw [List.length_reverse]; exact hlen)]
  rw [List.reverse_reverse]
  exact hparse

/-- C6: `suspend_zone`/`suspend_all_zones` transmit as `until` exactly
the wire date-time serialization of the timestamp, and that
serialization does not silently truncate timezone information: for
offsets of at most a day, equal wire strings force equal offsets. -/
theorem suspend_until_serialization (z c : Int) (dt dt1 dt2 : PyDateTime)
    (h1 : dt1.tzOffsetMinutes.natAbs ≤ 1440)
    (h2 : dt2.tzOffsetMinutes.natAbs ≤ 1440) :
    lookup (suspend_zone_args z dt) "until" =
      some (.str (dateTimeToJson dt)) ∧
    lookup (suspend_all_zones_args c dt) "until" =
      some (.str (dateTimeToJson dt)) ∧
    extractTzOffset (dateTimeToJson dt1) = some dt1.tzOffsetMinutes ∧
    (dateTimeToJson dt1 = dateTimeToJson dt2 →
      dt1.tzOffsetMinutes = dt2.tzOffsetMinutes) := by
  refine ⟨rfl, rfl, extractTzOffset_dateTimeToJson dt1 h1, fun heq => ?_⟩
  have e1 := extractTzOffset_dateTimeToJson dt1 h1
  have e2 := extractTzOffset_dateTimeToJson dt2 h2
  rw [heq, e2] at e1
  exact (Option.some_injective _ e1).symm

/-- Witness for C6 at two timestamps differing only in offset. -/
theorem suspend_until_serialization_witness :
    lookup (suspend_zone_args 3 ⟨2024, 5, 1, 10, 30, 0, 90⟩) "until" =
      some (.str (dateTimeToJson ⟨2024, 5, 1, 10, 30, 0, 90⟩)) ∧
    extractTzOffset (dateTimeToJson ⟨2024, 5, 1, 10, 30, 0, 90⟩) =
      some ((90 : Int)) :=
  ⟨(suspend_until_serialization 3 4 ⟨2024, 5, 1, 10, 30, 0, 90⟩
      ⟨2024, 5, 1, 10, 30, 0, 90⟩ ⟨2024, 5, 1, 10, 30, 0, -120⟩
      (by decide) (by decide)).1,
   (suspend_until_serialization 3 4 ⟨2024, 5, 1, 10, 30, 0, 90⟩
      ⟨2024, 5, 1, 10, 30, 0, 90⟩ ⟨2024, 5, 1, 10, 30, 0, -120⟩
      (by decide) (by decide)).2.2.1⟩

/-- The `i`-th call of a sequence sends the `i`-th token the auth
collaborator produces from the current state, over the `i`-th freshly
allocated session, carrying that operation's field and arguments. -/
theorem runOps_request (c : HydrawiseClient) (w : World) (ops : List Op) :
    ∀ i (h : i < ops.length),
      (runOps c w ops).1.get? i = some
        { authHeader := w.auth.tokens (w.auth.tokenCalls + i),
          sessionId := w.nextSession + i,
          gqlField := (ops.get ⟨i, h⟩).gqlField,
          args := (ops.get ⟨i, h⟩).gqlArgs } := by
  induction ops generalizing c w with
  | nil =>
    intro i h
    exact absurd h (Nat.not_lt_zero i)
  | cons op ops ih =>
    intro i h
    cases i with
    | zero =>
      simp [runOps, runOp, mkClient, AuthState.getToken]
    | succ j =>
      have hj : j < ops.length := Nat.lt_of_succ_lt_succ h
      have step : (runOps c w (op :: ops)).1.get? (j + 1) =
          (runOps (runOp c w op).2.1 (runOp c w op).2.2 ops).1.get? j := rfl
      rw [step, ih _ _ j hj]
      show some (Request.mk (w.auth.tokens (w.auth.tokenCalls + 1 + j))
          (w.nextSession + 1 + j) (ops.get ⟨j, hj⟩).gqlField
          (ops.get ⟨j, hj⟩).gqlArgs) =
        some (Request.mk (w.auth.tokens (w.auth.tokenCalls + (j + 1)))
          (w.nextSession + (j + 1)) (ops.get ⟨j, hj⟩).gqlField
          (ops.get ⟨j, hj⟩).gqlArgs)
      rw [show w.auth.tokenCalls + 1 + j = w.auth.tokenCalls + (j + 1) from by
            omega,
          show w.nextSession + 1 + j = w.nextSession + (j + 1) from by omega]

/-- C7: starting from a fresh collaborator, the `i`-th operation's
request carries as `Authorization` header exactly the `i`-th token the
auth collaborator returned, on the `i`-th freshly opened session; no
two calls share a session. -/
theorem fresh_token_and_session_per_call (c : HydrawiseClient)
    (tokens : Nat → String) (ops : List Op) (i j : Nat)
    (hi : i < ops.length) (hj : j < ops.length) (hij : i ≠ j) :
    (runOps c ⟨⟨tokens, 0⟩, 0⟩ ops).1.get? i = some
      { authHeader := tokens i, sessionId := i,
        gqlField := (ops.get ⟨i, hi⟩).gqlField,
        args := (ops.get ⟨i, hi⟩).gqlArgs } ∧
    (∀ ri rj, (runOps c ⟨⟨tokens, 0⟩, 0⟩ ops).1.get? i = some ri →
      (runOps c ⟨⟨tokens, 0⟩, 0⟩ ops).1.get? j = some rj →
      ri.sessionId ≠ rj.sessionId) := by
  have gi := runOps_request c ⟨⟨tokens, 0⟩, 0⟩ ops i hi
  have gj := runOps_request c ⟨⟨tokens, 0⟩, 0⟩ ops j hj
  simp only [Nat.zero_add] at gi gj
  refine ⟨gi, fun ri rj hri hrj => ?_⟩
  rw [gi] at hri
  rw [gj] at hrj
  have hriA : ri = Request.mk (tokens i) i (ops.get ⟨i, hi⟩).gqlField
      (ops.get ⟨i, hi⟩).gqlArgs :=
    (Option.some_injective _ hri).symm
  have hrjA : rj = Request.mk (tokens j) j (ops.get ⟨j, hj⟩).gqlField
      (ops.get ⟨j, hj⟩).gqlArgs :=
    (Option.some_injective _ hrj).symm
  rw [hriA, hrjA]
  exact hij

/-- Witness for C7 on a two-call sequence. -/
theorem fresh_token_and_session_per_call_witness :
    (runOps ⟨0⟩ ⟨⟨fun n => "tok" ++ toString n, 0⟩, 0⟩
      [Op.get_user, Op.stop_zone 7]).1.get? 1 = some
      { authHeader := "tok" ++ toString 1, sessionId := 1,
        gqlField := "stopZone", args := [("zoneId", .int 7)] } :=
  (fresh_token_and_session_per_call ⟨0⟩ (fun n => "tok" ++ toString n)
    [Op.get_user, Op.stop_zone 7] 1 0 (by decide) (by decide)
    (by decide)).1

/-- C8: the client object is just the auth collaborator reference stored
at construction, and no operation — singly or in sequence — changes it:
calls leave the client's stored state untouched. -/
theorem client_state_unchanged (c : HydrawiseClient) (w : World)
    (ops : List Op) :
    (runOps c w ops).2.1 = c ∧
    (∀ op, (runOp c w op).2.1 = c) ∧
    (∀ c1 c2 : HydrawiseClient, c1.authRef = c2.authRef → c1 = c2) := by
  refine ⟨?_, fun op => rfl, fun c1 c2 h => ?_⟩
  · induction ops generalizing w with
    | nil => rfl
    | cons op ops ih => exact ih _
  · cases c1
    cases c2
    cases h
    rfl

/-- Witness for C8 on a concrete call sequence. -/
theorem client_state_unchanged_witness :
    (runOps ⟨5⟩ ⟨⟨fun _ => "t", 0⟩, 0⟩
      [Op.get_user, Op.start_zone 1 false 30 false, Op.stop_all_zones 2]).2.1 =
      (⟨5⟩ : HydrawiseClient) :=
  (client_state_unchanged ⟨5⟩ ⟨⟨fun _ => "t", 0⟩, 0⟩
    [Op.get_user, Op.start_zone 1 false 30 false, Op.stop_all_zones 2]).1

end Hydrawise
